import Mathlib

/-!
Verification of the RagFlow pipeline adapter
(`rag_flow_webapi_pipeline_cs.py`).

Python strings are modelled as `List Char` (Python `len`, slicing and the
`in` operator all act on code points).  JSON values produced by the standard
library's `json.loads` are modelled by the inductive `Json`; the outcome of
each library-level network / parse call is an explicit input to the embedded
operation.
-/

/-- Python strings as lists of code points. -/
abbrev Str : Type := List Char

/-- Shorthand turning a Lean string literal into the `List Char` model. -/
def pyS (s : String) : Str := s.data

/-- JSON values as returned by `json.loads`. -/
inductive Json where
  | null
  | bool (b : Bool)
  | num (n : Int)
  | str (s : Str)
  | arr (elems : List Json)
  | obj (fields : List (Str × Json))

mutual

/-- Structural equality of JSON values (Python `==` on values decoded by
`json.loads`), used by dict/set membership. -/
def jeq : Json → Json → Bool
  | Json.null, Json.null => true
  | Json.bool a, Json.bool b => a == b
  | Json.num a, Json.num b => a == b
  | Json.str a, Json.str b => a == b
  | Json.arr a, Json.arr b => jeqArr a b
  | Json.obj a, Json.obj b => jeqObj a b
  | _, _ => false

/-- Elementwise equality of JSON arrays. -/
def jeqArr : List Json → List Json → Bool
  | [], [] => true
  | x :: xs, y :: ys => jeq x y && jeqArr xs ys
  | _, _ => false

/-- Fieldwise equality of JSON objects. -/
def jeqObj : List (Str × Json) → List (Str × Json) → Bool
  | [], [] => true
  | (k, x) :: xs, (k', y) :: ys => k == k' && jeq x y && jeqObj xs ys
  | _, _ => false

end

/-- Python `in` on a collection of JSON values (the `filesList` set). -/
def jmem (x : Json) : List Json → Bool
  | [] => false
  | y :: t => jeq x y || jmem x t

/-- Dictionary lookup on an object's fields.  `json.loads` keeps the last
binding of a duplicated key, so the lookup prefers later fields. -/
def jget : List (Str × Json) → Str → Option Json
  | [], _ => none
  | (k, v) :: rest, key =>
    match jget rest key with
    | some r => some r
    | none => if k = key then some v else none

/-- Python truthiness of a JSON value (`if x:`). -/
def Json.truthy : Json → Bool
  | Json.null => false
  | Json.bool b => b
  | Json.num n => decide (n ≠ 0)
  | Json.str s => !s.isEmpty
  | Json.arr l => !l.isEmpty
  | Json.obj f => !f.isEmpty

/-- Python's `in` operator on strings: contiguous-substring test. -/
def pyIn (needle : Str) : Str → Bool
  | [] => needle.isEmpty
  | c :: t => List.isPrefixOf needle (c :: t) || pyIn needle t

/-- Python `str.strip()`: drop whitespace from both ends. -/
def pyStrip (s : Str) : Str :=
  ((s.dropWhile Char.isWhitespace).reverse.dropWhile Char.isWhitespace).reverse

/-- Python `str.lower()` (ASCII case folding suffices here). -/
def pyLower (s : Str) : Str := s.map Char.toLower

/-- Python `str()` used by f-string interpolation.  Only scalar values reach
it in this program; the container cases are never claim-relevant. -/
def pyStrOf : Json → Str
  | Json.str s => s
  | Json.num n => (toString n).data
  | Json.bool true => pyS "True"
  | Json.bool false => pyS "False"
  | Json.null => pyS "None"
  | Json.arr _ => pyS "<list>"
  | Json.obj _ => pyS "<dict>"

/-- The four configuration valves. -/
structure Valves where
  API_KEY : Str
  AGENT_ID : Str
  HOST : Str
  PORT : Str

/-- `ext = filename.split('.')[-1].strip().lower() if '.' in filename else ''`. -/
def extOf (fname : Str) : Str :=
  if fname.contains '.' then pyLower (pyStrip ((List.splitOn '.' fname).getLastD []))
  else []

/-- One reference bullet:
`f"\n- [\x7bfilename\x7d](\x7bHOST\x7d:\x7bPORT\x7d/document/\x7bdoc_id\x7d?ext=\x7bext\x7d&prefix=document)"`. -/
def bulletOf (v : Valves) (docId : Json) (fname : Str) : Str :=
  pyS "\n- [" ++ fname ++ pyS "](" ++ v.HOST ++ pyS ":" ++ v.PORT ++
    pyS "/document/" ++ pyStrOf docId ++ pyS "?ext=" ++ extOf fname ++
    pyS "&prefix=document" ++ pyS ")"

/-- The `for chunk in reference.get('chunks', [])` loop building
`referenceStr`, with `files` the `filesList` set and `acc` the string built
so far.  `none` models a raised exception (a non-dict chunk or a non-string
`document_name`), which aborts the build before anything is yielded. -/
def refLoop (v : Valves) : List Json → List Json → Str → Option Str
  | [], _, acc => some acc
  | Json.obj cf :: rest, files, acc =>
    let docId := (jget cf (pyS "document_id")).getD Json.null
    if docId.truthy = true ∧ jmem docId files = false then
      match (jget cf (pyS "document_name")).getD (Json.str (pyS "Unknown")) with
      | Json.str fname =>
        refLoop v rest (docId :: files) (acc ++ bulletOf v docId fname)
      | _ => none
    else refLoop v rest files acc
  | _ :: _, _, _ => none

/-- The `if json_data['data'].get('reference'):` block.  Returns the list of
fragments it yields; `none` models an exception raised while building the
reference string (nothing is yielded in that case). -/
def refPart (v : Valves) (d : List (Str × Json)) : Option (List Str) :=
  match jget d (pyS "reference") with
  | none => some []
  | some r =>
    if r.truthy = true then
      match r with
      | Json.obj fs =>
        match (jget fs (pyS "chunks")).getD (Json.arr []) with
        | Json.arr cs =>
          (refLoop v cs [] (pyS "\n\n### References\n")).map (fun s => [s])
        | _ => none
      | _ => none
    else some []

/-- Processing of one event whose payload has a dict `data` field `d`, given
the accumulator `full` (`full_answer`).  Returns the yielded fragments and
the new accumulator.  A non-string `answer` makes the Python membership test
raise `TypeError`, aborting the whole line (nothing yielded); an exception
inside the reference block keeps the already-yielded answer fragment and the
already-performed accumulator update. -/
def handleData (v : Valves) (full : Str) (d : List (Str × Json)) :
    List Str × Str :=
  match jget d (pyS "answer") with
  | some (Json.str s) =>
    if pyIn (pyS "* is running...") s = true then ((refPart v d).getD [], full)
    else if full.length < s.length then
      (List.drop full.length s :: (refPart v d).getD [], s)
    else ((refPart v d).getD [], full)
  | some _ => ([], full)
  | none => ((refPart v d).getD [], full)

/-- One line of the streamed completion response, as delivered by
`aiter_lines`, together with the outcome of `json.loads` on its stripped
`data:` payload (`none` models `json.JSONDecodeError`). -/
structure StreamLine where
  text : Str
  loads : Option Json

/-- The per-line body of the streaming loop.  Returns the fragments yielded
for this line and the updated accumulator.  Lines without the `data:`
prefix, blank or `[DONE]` payloads, malformed JSON, and payloads whose
`data` field is absent or not a dict all yield nothing and leave the
accumulator unchanged. -/
def processLine (v : Valves) (full : Str) (ln : StreamLine) : List Str × Str :=
  if List.isPrefixOf (pyS "data:") ln.text then
    if pyStrip (ln.text.drop 5) = [] ∨ pyStrip (ln.text.drop 5) = pyS "[DONE]" then
      ([], full)
    else
      match ln.loads with
      | none => ([], full)
      | some (Json.obj top) =>
        match jget top (pyS "data") with
        | some (Json.obj d) => handleData v full d
        | _ => ([], full)
      | some _ => ([], full)
  else ([], full)

/-- The whole streaming loop: fold `processLine` over the lines, starting
from accumulator `full` (`full_answer = ""` at the top of `pipe`). -/
def processLines (v : Valves) (full : Str) : List StreamLine → List Str × Str
  | [] => ([], full)
  | ln :: rest =>
    let step := processLine v full ln
    let next := processLines v step.2 rest
    (step.1 ++ next.1, next.2)

/-- Outcome of the streaming completion POST, as far as the adapter can
observe it: a connection failure, or a response with a status code, an error
body (read only on the non-200 path) and the streamed lines. -/
inductive CompletionOutcome where
  | connectError
  | response (status : Nat) (errBody : Str) (lines : List StreamLine)

/-- Mutable adapter state: `self.session_id`, `self.sessionKV`, `self.debug`. -/
structure PipeState where
  session_id : Json
  sessionKV : List (Json × Json)
  debug : Bool

/-- `"Error: RAGFlow session not initialized. ..."` fragment. -/
def sessionNotInitMsg : Str :=
  pyS "Error: RAGFlow session not initialized. Please start a new chat or send a new message to create one."

/-- `f"Error from RAGFlow API: \x7bstatus\x7d - \x7bbody\x7d"` fragment. -/
def apiErrMsg (status : Nat) (body : Str) : Str :=
  pyS "Error from RAGFlow API: " ++ pyS (toString status) ++ pyS " - " ++ body

/-- `f"Error: Could not connect to RAGFlow service at \x7bHOST\x7d:\x7bPORT\x7d"`. -/
def connectErrMsg (v : Valves) : Str :=
  pyS "Error: Could not connect to RAGFlow service at " ++ v.HOST ++ pyS ":" ++ v.PORT

/-- The `pipe` generator: returns the list of yielded fragments and whether
the completion request was issued.  With a falsy `self.session_id` it yields
one error fragment and returns without sending anything; a non-200 status
yields one status-and-body fragment; a 200 status streams the lines. -/
def pipe (v : Valves) (st : PipeState) (net : CompletionOutcome) :
    List Str × Bool :=
  if st.session_id.truthy = true then
    match net with
    | CompletionOutcome.connectError => ([connectErrMsg v], true)
    | CompletionOutcome.response status errBody lines =>
      if status ≠ 200 then ([apiErrMsg status errBody], true)
      else ((processLines v [] lines).1, true)
  else ([sessionNotInitMsg], false)

/-- Exceptions the session-creation path can raise to the caller. -/
inductive InletError where
  | netError
  | httpStatusError
  | jsonDecodeError
  | attributeError
deriving DecidableEq

/-- Outcome of the session-creation POST: the call itself raising, or a
response with a status code and the result of parsing its body (`none`
models `response.json()` raising). -/
inductive SessionOutcome where
  | raise
  | response (status : Nat) (body : Option Json)

/-- `httpx` success statuses: `raise_for_status` raises on anything else. -/
def is2xx (s : Nat) : Bool := decide (200 ≤ s) && decide (s < 300)

/-- Lookup in the `sessionKV` dictionary (keys are inserted at most once). -/
def lookupKV : List (Json × Json) → Json → Option Json
  | [], _ => none
  | (k, v) :: rest, key => if jeq k key = true then some v else lookupKV rest key

/-- `body.get('metadata', \x7b\x7d).get('chat_id')`; a non-dict `metadata`
value makes the second `.get` raise `AttributeError` (uncaught in `inlet`). -/
def chatIdOf (body : List (Str × Json)) : Except InletError Json :=
  match (jget body (pyS "metadata")).getD (Json.obj []) with
  | Json.obj m => Except.ok ((jget m (pyS "chat_id")).getD Json.null)
  | _ => Except.error InletError.attributeError

/-- `json_res.get('data', \x7b\x7d).get('id')`; a non-dict response or
non-dict `data` value raises `AttributeError` (caught and re-raised). -/
def dataIdOf (res : Json) : Except InletError Json :=
  match res with
  | Json.obj fs =>
    match (jget fs (pyS "data")).getD (Json.obj []) with
    | Json.obj d => Except.ok ((jget d (pyS "id")).getD Json.null)
    | _ => Except.error InletError.attributeError
  | _ => Except.error InletError.attributeError

/-- The `inlet` hook.  Returns either the raised exception or the new state,
together with the number of session-creation requests issued.  A cache hit
reuses the cached id without any request; on a miss exactly one request is
issued, and every failure of it is re-raised — except a well-formed response
whose `data.id` is falsy or absent, which is only logged: `inlet` then
returns normally with `self.session_id` set to that falsy value and nothing
cached. -/
def inlet (st : PipeState) (body : List (Str × Json)) (net : SessionOutcome) :
    Except InletError PipeState × Nat :=
  if st.debug = false then (Except.ok st, 0)
  else
    match chatIdOf body with
    | Except.error e => (Except.error e, 0)
    | Except.ok chatId =>
      if chatId.truthy = false then (Except.ok st, 0)
      else
        match lookupKV st.sessionKV chatId with
        | some sid => (Except.ok { st with session_id := sid }, 0)
        | none =>
          match net with
          | SessionOutcome.raise => (Except.error InletError.netError, 1)
          | SessionOutcome.response status parsed =>
            if is2xx status = false then (Except.error InletError.httpStatusError, 1)
            else
              match parsed with
              | none => (Except.error InletError.jsonDecodeError, 1)
              | some res =>
                match dataIdOf res with
                | Except.error e => (Except.error e, 1)
                | Except.ok sid =>
                  if sid.truthy = true then
                    (Except.ok { st with session_id := sid,
                                         sessionKV := (chatId, sid) :: st.sessionKV }, 1)
                  else (Except.ok { st with session_id := sid }, 1)

/-- Whether an `Except` result is a raised exception. -/
def isError {ε α : Type} : Except ε α → Bool
  | Except.error _ => true
  | Except.ok _ => false

/-- A configuration with empty valves, used for concrete evaluations. -/
def v0 : Valves := { API_KEY := [], AGENT_ID := [], HOST := [], PORT := [] }

/-- Fresh adapter state as built by `__init__`. -/
def st0 : PipeState := { session_id := Json.null, sessionKV := [], debug := true }

/-- Adapter state holding a truthy session id. -/
def stS : PipeState := { session_id := Json.str (pyS "s1"), sessionKV := [], debug := true }

/-- Adapter state whose cache already maps conversation `c1` to session `s1`. -/
def stHit : PipeState :=
  { session_id := Json.null,
    sessionKV := [(Json.str (pyS "c1"), Json.str (pyS "s1"))], debug := true }

/-- An inlet body carrying `metadata.chat_id = "c1"`. -/
def body0 : List (Str × Json) :=
  [(pyS "metadata", Json.obj [(pyS "chat_id", Json.str (pyS "c1"))])]

/-- A streamed event line whose payload decodes to an answer event. -/
def answerLine (s : Str) : StreamLine :=
  { text := pyS "data: x",
    loads := some (Json.obj [(pyS "data", Json.obj [(pyS "answer", Json.str s)])]) }

/-- A reference chunk object with string `document_id` and `document_name`. -/
def refChunk (p : Str × Str) : Json :=
  Json.obj [(pyS "document_id", Json.str p.1), (pyS "document_name", Json.str p.2)]

/-- A streamed event line whose payload decodes to a reference event. -/
def refLine (chunks : List (Str × Str)) : StreamLine :=
  { text := pyS "data: x",
    loads := some (Json.obj [(pyS "data", Json.obj
      [(pyS "reference", Json.obj [(pyS "chunks", Json.arr (chunks.map refChunk))])])]) }

/-- First-occurrence-wins deduplication of reference chunks by `document_id`,
the specification-level counterpart of the `filesList` set. -/
def dedupChunks (seen : List Str) : List (Str × Str) → List (Str × Str)
  | [] => []
  | (d, n) :: rest =>
    if d ∈ seen then dedupChunks seen rest
    else (d, n) :: dedupChunks (d :: seen) rest

/-- Lines the streaming loop skips without yielding: a `data:`-prefixed line
whose stripped payload is blank or the `[DONE]` sentinel, or whose payload is
malformed JSON. -/
def skippedLine (ln : StreamLine) : Prop :=
  List.isPrefixOf (pyS "data:") ln.text = true ∧
    (pyStrip (ln.text.drop 5) = [] ∨ pyStrip (ln.text.drop 5) = pyS "[DONE]" ∨
      ln.loads.isNone = true)

instance (ln : StreamLine) : Decidable (skippedLine ln) := by
  unfold skippedLine; infer_instance

/-- Session-creation outcomes that make `inlet` raise: the request raising, a
non-2xx status, a body `response.json()` cannot parse, or a parsed body on
which `.get('data', ...).get('id')` raises. -/
def creationFails : SessionOutcome → Bool
  | SessionOutcome.raise => true
  | SessionOutcome.response status parsed =>
    !(is2xx status) ||
      (match parsed with
       | none => true
       | some res => isError (dataIdOf res))

/-- Modelled from the claim's wording for the extension rule: the lowercased
substring after the last `.` of the document name (no whitespace stripping),
or the empty string when no `.` is present.  Compare with `extOf`, which the
code computes and which additionally strips whitespace. -/
def extClaim (fname : Str) : Str :=
  if fname.contains '.' then pyLower ((List.splitOn '.' fname).getLastD [])
  else []

/-- The reference bullet as the claim describes it, using `extClaim`. -/
def bulletClaim (v : Valves) (docId fname : Str) : Str :=
  pyS "\n- [" ++ fname ++ pyS "](" ++ v.HOST ++ pyS ":" ++ v.PORT ++
    pyS "/document/" ++ docId ++ pyS "?ext=" ++ extClaim fname ++
    pyS "&prefix=document" ++ pyS ")"

/-- Unfolding of `processLine` on an answer event: the fragment is emitted
exactly when the marker is absent and the cumulative answer got longer. -/
theorem processLine_answerLine (v : Valves) (full s : Str) :
    processLine v full (answerLine s) =
      if pyIn (pyS "* is running...") s = true then ([], full)
      else if full.length < s.length then ([List.drop full.length s], s)
      else ([], full) := rfl

/-- One unfolding step of the streaming loop. -/
theorem processLines_cons (v : Valves) (full : Str) (ln : StreamLine)
    (rest : List StreamLine) :
    processLines v full (ln :: rest)
      = ((processLine v full ln).1 ++ (processLines v (processLine v full ln).2 rest).1,
         (processLines v (processLine v full ln).2 rest).2) := rfl

/-- Unfolding of `processLine` on a reference event. -/
theorem processLine_refLine (v : Valves) (full : Str) (chunks : List (Str × Str)) :
    processLine v full (refLine chunks)
      = (((refLoop v (chunks.map refChunk) [] (pyS "\n\n### References\n")).map
            (fun s => [s])).getD [], full) := rfl

/-- One unfolding step of the reference-chunk loop. -/
theorem refLoop_cons (v : Valves) (d n : Str) (rest : List Json)
    (files : List Json) (acc : Str) :
    refLoop v (refChunk (d, n) :: rest) files acc
      = if (Json.str d).truthy = true ∧ jmem (Json.str d) files = false then
          refLoop v rest (Json.str d :: files) (acc ++ bulletOf v (Json.str d) n)
        else refLoop v rest files acc := rfl

/-- Set membership of a string id among string ids, via `jeq`. -/
theorem jmem_str_iff (d : Str) (seen : List Str) :
    jmem (Json.str d) (seen.map Json.str) = true ↔ d ∈ seen := by
  induction seen with
  | nil => simp [jmem]
  | cons a t ih => simp [jmem, jeq, ih]

/-- A nonempty string is truthy. -/
theorem str_truthy_of_ne (d : Str) (hd : d ≠ []) : (Json.str d).truthy = true := by
  cases d with
  | nil => exact absurd rfl hd
  | cons c t => rfl

/-- The reference loop renders exactly one bullet per first occurrence of a
`document_id`, in order, appended to the accumulated string. -/
theorem refLoop_eq (v : Valves) (chunks : List (Str × Str)) (seen : List Str)
    (acc : Str) (h : ∀ p ∈ chunks, p.1 ≠ []) :
    refLoop v (chunks.map refChunk) (seen.map Json.str) acc
      = some (acc ++ (List.map (fun p => bulletOf v (Json.str p.1) p.2)
          (dedupChunks seen chunks)).flatten) := by
  induction chunks generalizing seen acc with
  | nil => simp [refLoop, dedupChunks]
  | cons p rest ih =>
    obtain ⟨d, n⟩ := p
    have hd : d ≠ [] := h (d, n) (List.mem_cons_self _ _)
    have htr := str_truthy_of_ne d hd
    rw [List.map_cons, refLoop_cons]
    by_cases hmem : d ∈ seen
    · rw [if_neg (fun hc => by
        have := (jmem_str_iff d seen).mpr hmem
        rw [hc.2] at this
        exact Bool.false_ne_true this)]
      rw [ih seen acc (fun q hq => h q (List.mem_cons_of_mem _ hq))]
      simp [dedupChunks, hmem]
    · rw [if_pos ⟨htr, by
        cases hj : jmem (Json.str d) (seen.map Json.str) with
        | false => rfl
        | true => exact absurd ((jmem_str_iff d seen).mp hj) hmem⟩]
      rw [← List.map_cons Json.str]
      rw [ih (d :: seen) (acc ++ bulletOf v (Json.str d) n)
            (fun q hq => h q (List.mem_cons_of_mem _ hq))]
      simp [dedupChunks, hmem, List.append_assoc]

/-- Streaming a chain of strictly-extending cumulative answers emits the
suffix deltas and ends with the accumulator holding the last answer. -/
theorem processLines_answer_chain (v : Valves) (as : List Str) (full : Str)
    (hchain : List.Chain' (fun p c => p <+: c ∧ p.length < c.length) (full :: as))
    (hmark : ∀ a ∈ as, pyIn (pyS "* is running...") a = false) :
    processLines v full (as.map answerLine)
      = (List.zipWith (fun p c => List.drop p.length c) (full :: as) as,
         as.getLastD full) := by
  induction as generalizing full with
  | nil => simp [processLines]
  | cons a rest ih =>
    rw [List.chain'_cons] at hchain
    have hm : pyIn (pyS "* is running...") a = false := hmark a (List.mem_cons_self _ _)
    have hstep : processLine v full (answerLine a) = ([List.drop full.length a], a) := by
      rw [processLine_answerLine, hm]
      simp [hchain.1.2]
    rw [List.map_cons, processLines_cons, hstep]
    dsimp only
    rw [ih a hchain.2 (fun q hq => hmark q (List.mem_cons_of_mem _ hq))]
    rw [List.getLastD_cons]
    rfl

/-- The initial accumulator followed by the emitted deltas reconstructs the
last cumulative answer: nothing is duplicated and nothing is lost. -/
theorem chain_join_deltas (as : List Str) (full : Str)
    (hchain : List.Chain' (fun p c => p <+: c ∧ p.length < c.length) (full :: as)) :
    full ++ (List.zipWith (fun p c => List.drop p.length c) (full :: as) as).flatten
      = as.getLastD full := by
  induction as generalizing full with
  | nil => simp
  | cons a rest ih =>
    rw [List.chain'_cons] at hchain
    obtain ⟨t, ht⟩ := hchain.1.1
    have hdrop : List.drop full.length a = t := by
      rw [← ht, List.drop_left]
    simp only [List.zipWith_cons_cons, List.flatten_cons, List.getLastD_cons]
    rw [hdrop, ← List.append_assoc, ht]
    exact ih a hchain.2

/-- A blank, `[DONE]` or malformed line yields nothing and leaves the
accumulator unchanged. -/
theorem processLine_skipped (v : Valves) (full : Str) (ln : StreamLine)
    (h : skippedLine ln) : processLine v full ln = ([], full) := by
  obtain ⟨hp, hrest⟩ := h
  unfold processLine
  rw [if_pos hp]
  by_cases hc : pyStrip (ln.text.drop 5) = [] ∨ pyStrip (ln.text.drop 5) = pyS "[DONE]"
  · rw [if_pos hc]
  · rw [if_neg hc]
    have hnone : ln.loads = none := by
      rcases hrest with h1 | h1 | h1
      · exact absurd (Or.inl h1) hc
      · exact absurd (Or.inr h1) hc
      · exact Option.isNone_iff_eq_none.mp h1
    rw [hnone]

/-- A non-200 completion status makes `pipe` yield the single
status-and-body fragment and stop. -/
theorem pipe_err_status (v : Valves) (st : PipeState) (status : Nat) (errBody : Str)
    (lines : List StreamLine) (hs : st.session_id.truthy = true) (h : status ≠ 200) :
    pipe v st (CompletionOutcome.response status errBody lines)
      = ([apiErrMsg status errBody], true) := by
  simp [pipe, hs, h]

/-- The error fragment contains the numeric status code and the body text. -/
theorem status_infix (status : Nat) (body : Str) :
    List.IsInfix (pyS (toString status)) (apiErrMsg status body) ∧
      List.IsInfix body (apiErrMsg status body) := by
  constructor
  · exact ⟨pyS "Error from RAGFlow API: ", pyS " - " ++ body,
      by simp [apiErrMsg, List.append_assoc]⟩
  · exact ⟨pyS "Error from RAGFlow API: " ++ pyS (toString status) ++ pyS " - ", [],
      by simp [apiErrMsg, List.append_assoc]⟩

/-- Cache hit: the cached session id is reused, no request issued. -/
theorem inlet_hit (st : PipeState) (body : List (Str × Json)) (net : SessionOutcome)
    (chatId sid : Json)
    (hdebug : st.debug = true)
    (hchat : chatIdOf body = Except.ok chatId)
    (htruthy : chatId.truthy = true)
    (hhit : lookupKV st.sessionKV chatId = some sid) :
    inlet st body net = (Except.ok { st with session_id := sid }, 0) := by
  simp [inlet, hdebug, hchat, htruthy, hhit]

/-- Cache miss: exactly one session-creation request is issued, whatever its
outcome. -/
theorem inlet_miss_count (st : PipeState) (body : List (Str × Json))
    (net : SessionOutcome) (chatId : Json)
    (hdebug : st.debug = true)
    (hchat : chatIdOf body = Except.ok chatId)
    (htruthy : chatId.truthy = true)
    (hmiss : lookupKV st.sessionKV chatId = none) :
    (inlet st body net).2 = 1 := by
  cases net with
  | raise => simp [inlet, hdebug, hchat, htruthy, hmiss]
  | response status parsed =>
    by_cases h2 : is2xx status = false
    · simp [inlet, hdebug, hchat, htruthy, hmiss, h2]
    · cases parsed with
      | none => simp [inlet, hdebug, hchat, htruthy, hmiss, h2]
      | some res =>
        cases hdi : dataIdOf res with
        | error e => simp [inlet, hdebug, hchat, htruthy, hmiss, h2, hdi]
        | ok sid =>
          by_cases hsid : sid.truthy = true
          · simp [inlet, hdebug, hchat, htruthy, hmiss, h2, hdi, hsid]
          · simp [inlet, hdebug, hchat, htruthy, hmiss, h2, hdi, hsid]

/-- Cache miss with a successful creation: the returned id is cached under
the conversation id and becomes the current session id. -/
theorem inlet_miss_success (st : PipeState) (body : List (Str × Json))
    (chatId sid res : Json) (status : Nat)
    (hdebug : st.debug = true)
    (hchat : chatIdOf body = Except.ok chatId)
    (htruthy : chatId.truthy = true)
    (hmiss : lookupKV st.sessionKV chatId = none)
    (h2 : is2xx status = true)
    (hdi : dataIdOf res = Except.ok sid)
    (hsid : sid.truthy = true) :
    inlet st body (SessionOutcome.response status (some res))
      = (Except.ok { st with session_id := sid,
                             sessionKV := (chatId, sid) :: st.sessionKV }, 1) := by
  simp [inlet, hdebug, hchat, htruthy, hmiss, h2, hdi, hsid]

/-- C1: for a streamed completion whose successive answer events carry
cumulative answers each strictly extending the previous one, `pipe`'s
streaming loop yields exactly the strict suffix deltas — each fragment is
the suffix of the new cumulative answer beyond the accumulator — the
accumulator ends at the final answer, and the concatenation of the yielded
fragments equals the final cumulative answer (no duplication). -/
theorem claim1_stream_strict_suffix_deltas (v : Valves) (as : List Str)
    (hchain : List.Chain' (fun p c => p <+: c ∧ p.length < c.length) ([] :: as))
    (hmark : ∀ a ∈ as, pyIn (pyS "* is running...") a = false) :
    (processLines v [] (as.map answerLine)).1
        = List.zipWith (fun p c => List.drop p.length c) ([] :: as) as
      ∧ (processLines v [] (as.map answerLine)).1.flatten = as.getLastD []
      ∧ (processLines v [] (as.map answerLine)).2 = as.getLastD [] := by
  have h := processLines_answer_chain v as [] hchain hmark
  refine ⟨by rw [h], ?_, by rw [h]⟩
  rw [h]
  have h2 := chain_join_deltas as [] hchain
  simpa using h2

/-- C1 witness: the `"A"`, `"AB"`, `"ABC"` stream emits `"A"`, `"B"`, `"C"`. -/
theorem claim1_witness :
    (processLines v0 [] ((([pyS "A", pyS "AB", pyS "ABC"] : List Str)).map answerLine)).1
        = [pyS "A", pyS "B", pyS "C"]
      ∧ (processLines v0 [] ((([pyS "A", pyS "AB", pyS "ABC"] : List Str)).map answerLine)).1.flatten
        = pyS "ABC"
      ∧ (processLines v0 [] ((([pyS "A", pyS "AB", pyS "ABC"] : List Str)).map answerLine)).2
        = pyS "ABC" := by
  have hch : List.Chain' (fun p c : Str => p <+: c ∧ p.length < c.length)
      ([] :: [pyS "A", pyS "AB", pyS "ABC"]) := by
    refine List.chain'_cons.mpr ⟨⟨⟨pyS "A", rfl⟩, by decide⟩,
      List.chain'_cons.mpr ⟨⟨⟨pyS "B", rfl⟩, by decide⟩,
        List.chain'_cons.mpr ⟨⟨⟨pyS "C", rfl⟩, by decide⟩, List.chain'_singleton _⟩⟩⟩
  obtain ⟨h1, h2, h3⟩ := claim1_stream_strict_suffix_deltas v0
    [pyS "A", pyS "AB", pyS "ABC"] hch (by decide)
  refine ⟨?_, ?_, ?_⟩
  · rw [h1]; decide
  · rw [h2]; decide
  · rw [h3]; decide

/-- C2 counterexample: the code's marker is `"* is running..."`, not
`" is running..."`: the answer `"x is running..."` contains the claimed
substring yet the code yields a fragment for it. -/
theorem claim2_counterexample :
    pyIn (pyS " is running...") (pyS "x is running...") = true ∧
      (processLine v0 [] (answerLine (pyS "x is running..."))).1
        = [pyS "x is running..."] := by decide

/-- C2 amended: an answer event whose answer contains the substring
`"* is running..."` yields no fragment and leaves the accumulator
unchanged. -/
theorem claim2_amended (v : Valves) (full s : Str)
    (h : pyIn (pyS "* is running...") s = true) :
    processLine v full (answerLine s) = ([], full) := by
  rw [processLine_answerLine, if_pos h]

/-- C2 witness: an answer containing `"* is running..."` is suppressed. -/
theorem claim2_witness :
    pyIn (pyS "* is running...") (pyS "Agent* is running...!") = true ∧
      processLine v0 [] (answerLine (pyS "Agent* is running...!")) = ([], []) :=
  ⟨by decide, claim2_amended v0 [] (pyS "Agent* is running...!") (by decide)⟩

/-- C3 counterexample: a well-formed 200 response whose `data` object has no
`id` field is only logged — `inlet` returns normally instead of re-raising,
refuting the claim that every such failure is re-raised. -/
theorem claim3_counterexample :
    isError (inlet st0 body0 (SessionOutcome.response 200
        (some (Json.obj [(pyS "data", Json.obj [])])))).1 = false ∧
      (inlet st0 body0 (SessionOutcome.response 200
        (some (Json.obj [(pyS "data", Json.obj [])])))).2 = 1 :=
  ⟨rfl, rfl⟩

/-- C3 amended: on a cache miss, a network error, a non-2xx status, an
unparsable body, or a body on which extracting `data.id` raises is re-raised
to the caller after the single request; only a well-formed response with a
falsy or absent `data.id` is not re-raised. -/
theorem claim3_amended (st : PipeState) (body : List (Str × Json))
    (net : SessionOutcome) (chatId : Json)
    (hdebug : st.debug = true)
    (hchat : chatIdOf body = Except.ok chatId)
    (htruthy : chatId.truthy = true)
    (hmiss : lookupKV st.sessionKV chatId = none)
    (hfail : creationFails net = true) :
    isError (inlet st body net).1 = true ∧ (inlet st body net).2 = 1 := by
  refine ⟨?_, inlet_miss_count st body net chatId hdebug hchat htruthy hmiss⟩
  cases net with
  | raise => simp [inlet, hdebug, hchat, htruthy, hmiss, isError]
  | response status parsed =>
    by_cases h2 : is2xx status = false
    · simp [inlet, hdebug, hchat, htruthy, hmiss, h2, isError]
    · cases parsed with
      | none => simp [inlet, hdebug, hchat, htruthy, hmiss, h2, isError]
      | some res =>
        cases hdi : dataIdOf res with
        | error e => simp [inlet, hdebug, hchat, htruthy, hmiss, h2, hdi, isError]
        | ok sid =>
          exfalso
          simp [creationFails, h2, hdi, isError] at hfail

/-- C3 witness: a network error during session creation is re-raised. -/
theorem claim3_witness :
    isError (inlet st0 body0 SessionOutcome.raise).1 = true ∧
      (inlet st0 body0 SessionOutcome.raise).2 = 1 :=
  claim3_amended st0 body0 SessionOutcome.raise (Json.str (pyS "c1"))
    rfl rfl rfl rfl rfl

/-- C4: a conversation id already in the cache issues zero session-creation
requests and reuses the cached id; a conversation id not in the cache issues
exactly one request, and on success the returned id is stored in the cache
keyed by that conversation id. -/
theorem claim4_session_cache (st : PipeState) (body : List (Str × Json))
    (net : SessionOutcome) (chatId : Json)
    (hdebug : st.debug = true)
    (hchat : chatIdOf body = Except.ok chatId)
    (htruthy : chatId.truthy = true) :
    (∀ sid, lookupKV st.sessionKV chatId = some sid →
        inlet st body net = (Except.ok { st with session_id := sid }, 0))
    ∧ (lookupKV st.sessionKV chatId = none → (inlet st body net).2 = 1)
    ∧ (∀ status res sid, lookupKV st.sessionKV chatId = none →
        net = SessionOutcome.response status (some res) →
        is2xx status = true → dataIdOf res = Except.ok sid → sid.truthy = true →
        inlet st body net
          = (Except.ok { st with session_id := sid,
                                 sessionKV := (chatId, sid) :: st.sessionKV }, 1)) := by
  refine ⟨?_, ?_, ?_⟩
  · intro sid hhit
    exact inlet_hit st body net chatId sid hdebug hchat htruthy hhit
  · intro hmiss
    exact inlet_miss_count st body net chatId hdebug hchat htruthy hmiss
  · intro status res sid hmiss hnet h2 hdi hsid
    subst hnet
    exact inlet_miss_success st body chatId sid res status hdebug hchat htruthy
      hmiss h2 hdi hsid

/-- C4 witness: a cached conversation reuses `s1` with no request; a fresh
conversation issues one request and caches the returned `s2`. -/
theorem claim4_witness :
    inlet stHit body0 SessionOutcome.raise
        = (Except.ok { stHit with session_id := Json.str (pyS "s1") }, 0)
      ∧ inlet st0 body0 (SessionOutcome.response 200
          (some (Json.obj [(pyS "data", Json.obj [(pyS "id", Json.str (pyS "s2"))])])))
        = (Except.ok { st0 with session_id := Json.str (pyS "s2"),
                                sessionKV := [(Json.str (pyS "c1"), Json.str (pyS "s2"))] }, 1) := by
  constructor
  · exact (claim4_session_cache stHit body0 SessionOutcome.raise
      (Json.str (pyS "c1")) rfl rfl rfl).1 (Json.str (pyS "s1")) rfl
  · exact (claim4_session_cache st0 body0 _ (Json.str (pyS "c1")) rfl rfl rfl).2.2
      200 _ (Json.str (pyS "s2")) rfl rfl rfl rfl rfl

/-- C5 counterexample: for `document_name = "a.pdf "` (trailing space) the
claimed extension rule gives `"pdf "`, but the code strips whitespace and
links with `ext=pdf`, so the yielded fragment differs from the claim's
rendering. -/
theorem claim5_counterexample :
    extClaim (pyS "a.pdf ") = pyS "pdf " ∧
      extOf (pyS "a.pdf ") = pyS "pdf" ∧
      (processLine v0 [] (refLine [(pyS "d1", pyS "a.pdf ")])).1
        = [pyS "\n\n### References\n" ++ bulletOf v0 (Json.str (pyS "d1")) (pyS "a.pdf ")] ∧
      (processLine v0 [] (refLine [(pyS "d1", pyS "a.pdf ")])).1
        ≠ [pyS "\n\n### References\n" ++ bulletClaim v0 (pyS "d1") (pyS "a.pdf ")] := by
  decide

/-- C5 amended: a reference event yields exactly one markdown fragment: a
`### References` header followed by one bullet per distinct `document_id`
(first occurrence wins, later duplicates yield no bullet), each bullet
linking to `HOST:PORT/document/ID?ext=EXT&prefix=document` with the
extension lowercased AND whitespace-stripped from the part after the last
`.` of the document name (empty when no `.` is present). -/
theorem claim5_amended (v : Valves) (full : Str) (chunks : List (Str × Str))
    (h : ∀ p ∈ chunks, p.1 ≠ []) :
    processLine v full (refLine chunks)
      = ([pyS "\n\n### References\n"
            ++ (List.map (fun p => bulletOf v (Json.str p.1) p.2)
                  (dedupChunks [] chunks)).flatten], full) := by
  rw [processLine_refLine]
  have h0 : refLoop v (List.map refChunk chunks) [] (pyS "\n\n### References\n")
      = some (pyS "\n\n### References\n"
          ++ (List.map (fun p => bulletOf v (Json.str p.1) p.2)
                (dedupChunks [] chunks)).flatten) :=
    refLoop_eq v chunks [] (pyS "\n\n### References\n") h
  rw [h0]
  rfl

/-- C5 witness: the claim's example — chunks d1/a.pdf, d1/a.pdf, d2/b —
yields one fragment with exactly two bullets, `b` getting an empty
extension. -/
theorem claim5_witness :
    processLine v0 [] (refLine [(pyS "d1", pyS "a.pdf"), (pyS "d1", pyS "a.pdf"),
        (pyS "d2", pyS "b")])
      = ([pyS "\n\n### References\n\n- [a.pdf](:/document/d1?ext=pdf&prefix=document)\n- [b](:/document/d2?ext=&prefix=document)"], []) := by
  have h := claim5_amended v0 []
    [(pyS "d1", pyS "a.pdf"), (pyS "d1", pyS "a.pdf"), (pyS "d2", pyS "b")]
    (by decide)
  rw [h]
  decide

/-- C6: a completion response with a non-2xx status makes `pipe` yield
exactly one fragment containing the numeric status code and the raw error
body, and the sequence then ends (no exception is raised: the embedded
`pipe` returns normally). -/
theorem claim6_non2xx (v : Valves) (st : PipeState) (status : Nat) (errBody : Str)
    (lines : List StreamLine)
    (hs : st.session_id.truthy = true)
    (h2 : is2xx status = false) :
    pipe v st (CompletionOutcome.response status errBody lines)
        = ([apiErrMsg status errBody], true)
      ∧ List.IsInfix (pyS (toString status)) (apiErrMsg status errBody)
      ∧ List.IsInfix errBody (apiErrMsg status errBody) := by
  have hne : status ≠ 200 := fun e => by
    subst e
    exact absurd h2 (by decide)
  exact ⟨pipe_err_status v st status errBody lines hs hne, status_infix status errBody⟩

/-- C6 witness: a 404 with body `"not found"` yields the single error
fragment. -/
theorem claim6_witness :
    pipe v0 stS (CompletionOutcome.response 404 (pyS "not found") [])
        = ([apiErrMsg 404 (pyS "not found")], true)
      ∧ List.IsInfix (pyS (toString 404)) (apiErrMsg 404 (pyS "not found"))
      ∧ List.IsInfix (pyS "not found") (apiErrMsg 404 (pyS "not found")) :=
  claim6_non2xx v0 stS 404 (pyS "not found") [] (by decide) (by decide)

/-- C7: with an absent or falsy session id, `pipe` yields exactly the
"session not initialized" fragment and ends, and no completion request is
sent. -/
theorem claim7_no_session (v : Valves) (st : PipeState) (net : CompletionOutcome)
    (h : st.session_id.truthy = false) :
    pipe v st net = ([sessionNotInitMsg], false) := by
  simp [pipe, h]

/-- C7 witness: the fresh state (session id `None`) short-circuits even when
the backend would have answered. -/
theorem claim7_witness :
    pipe v0 st0 (CompletionOutcome.response 200 [] [answerLine (pyS "A")])
      = ([sessionNotInitMsg], false) :=
  claim7_no_session v0 st0 (CompletionOutcome.response 200 [] [answerLine (pyS "A")])
    (by decide)

/-- C8: a line with a malformed-JSON payload, a blank payload or the
`[DONE]` sentinel is skipped without terminating the stream: deleting it
from the line list leaves the output of the whole loop unchanged, so
subsequent valid lines still produce their fragments and the sequence ends
only at the natural end of the lines. -/
theorem claim8_skipped_lines (v : Valves) (junk : StreamLine)
    (xs ys : List StreamLine) (full : Str) (h : skippedLine junk) :
    processLines v full (xs ++ junk :: ys) = processLines v full (xs ++ ys) := by
  induction xs generalizing full with
  | nil =>
    rw [List.nil_append, List.nil_append, processLines_cons,
        processLine_skipped v full junk h]
    rfl
  | cons x xs ih =>
    rw [List.cons_append, List.cons_append, processLines_cons, processLines_cons, ih]

/-- C8 witness: a malformed line between two answer events changes nothing,
and a `[DONE]` line before an answer event changes nothing; the following
valid lines still yield `"A"` and `"B"`. -/
theorem claim8_witness :
    processLines v0 [] ([answerLine (pyS "A")]
        ++ ({ text := pyS "data: nope", loads := none } : StreamLine)
          :: [answerLine (pyS "AB")])
      = processLines v0 [] ([answerLine (pyS "A")] ++ [answerLine (pyS "AB")])
    ∧ processLines v0 [] ([]
        ++ ({ text := pyS "data: [DONE]", loads := none } : StreamLine)
          :: [answerLine (pyS "A")])
      = processLines v0 [] ([] ++ [answerLine (pyS "A")])
    ∧ (processLines v0 [] ([answerLine (pyS "A")] ++ [answerLine (pyS "AB")])).1
      = [pyS "A", pyS "B"] := by
  refine ⟨?_, ?_, by decide⟩
  · exact claim8_skipped_lines v0 ({ text := pyS "data: nope", loads := none })
      [answerLine (pyS "A")] [answerLine (pyS "AB")] [] (by decide)
  · exact claim8_skipped_lines v0 ({ text := pyS "data: [DONE]", loads := none })
      [] [answerLine (pyS "A")] [] (by decide)

/-- C9: an answer event whose cumulative answer is not strictly longer than
the accumulator (equal or shorter, including an equal-length rewrite) yields
no fragment and leaves the accumulator unchanged. -/
theorem claim9_not_longer (v : Valves) (full s : Str) (h : s.length ≤ full.length) :
    processLine v full (answerLine s) = ([], full) := by
  rw [processLine_answerLine]
  by_cases hm : pyIn (pyS "* is running...") s = true
  · rw [if_pos hm]
  · rw [if_neg hm, if_neg (by omega)]

/-- C9 witness: with accumulator `"AB"`, the equal-length non-prefix answer
`"XY"` yields nothing and the accumulator stays `"AB"`. -/
theorem claim9_witness :
    processLine v0 (pyS "AB") (answerLine (pyS "XY")) = ([], pyS "AB") :=
  claim9_not_longer v0 (pyS "AB") (pyS "XY") (by decide)

/-- C10: `pipe` treats only an exact 200 status as success: any other
status, including other 2xx codes, takes the error path and yields the
single status-and-body fragment instead of streaming the lines. -/
theorem claim10_only_200 (v : Valves) (st : PipeState) (status : Nat)
    (errBody : Str) (lines : List StreamLine)
    (hs : st.session_id.truthy = true) (h : status ≠ 200) :
    pipe v st (CompletionOutcome.response status errBody lines)
      = ([apiErrMsg status errBody], true) :=
  pipe_err_status v st status errBody lines hs h

/-- C10 witness: a 201 response — a success status in HTTP terms — still
takes the error path, even when the body holds streamable lines. -/
theorem claim10_witness :
    is2xx 201 = true
      ∧ pipe v0 stS (CompletionOutcome.response 201 (pyS "created")
            [answerLine (pyS "A")])
        = ([apiErrMsg 201 (pyS "created")], true) :=
  ⟨by decide, claim10_only_200 v0 stS 201 (pyS "created") [answerLine (pyS "A")]
    (by decide) (by decide)⟩
